import Mathlib

/-!
Verification of the alert-to-decision pipeline of the TradingView webhook
trading agent.  The definitions below are shallow embeddings of the
TypeScript sources:

* `src/mastra/workflows/trading-workflow.ts` — the workflow steps
  `analyzeAlert` (prompt building + regex extraction) and `executeTrade`
  (the decision gate), and
* `src/mastra/mcp.ts` — the webhook handler: zod schema validation
  (`tradingViewWebhookSchema.parse`) and the field-coalescing normalizer
  (`alertData`).

JavaScript numbers are modelled as `ℚ` (the sources only compare them with
constants and test them for zero), JS `undefined`-or-value fields as
`Option`, and the fallible agent stream as an `Except String String`
outcome.  The regexes of the extractor are modelled character by character
over `List Char`, following the exact patterns in the source.
-/

namespace Trading

/-! ## Analysis Extractor (trading-workflow.ts lines 89–96)

The source applies three regexes to the concatenated agent response:
`/confidence[:\s]*(\d+)%/i`, `/recommended action[:\s]*(buy|sell|hold)/i`,
`/risk level[:\s]*(low|medium|high)/i`, each taking the first match. -/

/-- The character class `[:\s]` of the source regexes: a colon or ASCII
whitespace (JS `\s` also covers some Unicode spaces, which cannot occur in
the patterns at issue). -/
def colonOrSpace (c : Char) : Bool :=
  c = ':' || c = ' ' || c = '\t' || c = '\n' || c = '\r' || c = '\x0b' || c = '\x0c'

/-- Case-insensitive literal match: if `cs` starts with the (lower-case)
pattern `ps` up to `Char.toLower`, return the remainder of `cs`. -/
def stripCI : List Char → List Char → Option (List Char)
  | [], cs => some cs
  | _ :: _, [] => none
  | p :: ps, c :: cs => if c.toLower = p then stripCI ps cs else none

/-- `parseInt` on a run of decimal digits. -/
def digitsToNat (ds : List Char) : Nat :=
  ds.foldl (fun n c => n * 10 + (c.toNat - 48)) 0

/-- Attempt the pattern `confidence[:\s]*(\d+)%` (case-insensitive) at the
head of `cs`; on success return the captured digits as a number.
Greedy matching of `[:\s]*` and `(\d+)` agrees with backtracking here
because the classes are disjoint and `%` is in neither. -/
def matchConfAt (cs : List Char) : Option Nat :=
  match stripCI "confidence".data cs with
  | none => none
  | some rest =>
    let afterSep := rest.dropWhile colonOrSpace
    let ds := afterSep.takeWhile Char.isDigit
    match ds, afterSep.drop ds.length with
    | [], _ => none
    | _ :: _, '%' :: _ => some (digitsToNat ds)
    | _ :: _, _ => none

/-- Scan for the first position where the confidence pattern matches,
as a JS regex `match` does. -/
def findConf : List Char → Option Nat
  | [] => none
  | c :: cs =>
    match matchConfAt (c :: cs) with
    | some n => some n
    | none => findConf cs

/-- First alternative of `alts` that matches case-insensitively at the head
of `cs`; the capture is the ORIGINAL input text (as a JS capture group
under the `i` flag preserves the input casing). -/
def matchAltCI (alts : List String) (cs : List Char) : Option String :=
  match alts with
  | [] => none
  | a :: rest =>
    match stripCI a.data cs with
    | some _ => some (String.mk (cs.take a.data.length))
    | none => matchAltCI rest cs

/-- Attempt `recommended action[:\s]*(buy|sell|hold)` (case-insensitive)
at the head of `cs`. -/
def matchActionAt (cs : List Char) : Option String :=
  match stripCI "recommended action".data cs with
  | none => none
  | some rest => matchAltCI ["buy", "sell", "hold"] (rest.dropWhile colonOrSpace)

/-- Scan for the first match of the recommended-action pattern. -/
def findAction : List Char → Option String
  | [] => none
  | c :: cs =>
    match matchActionAt (c :: cs) with
    | some s => some s
    | none => findAction cs

/-- Attempt `risk level[:\s]*(low|medium|high)` (case-insensitive) at the
head of `cs`. -/
def matchRiskAt (cs : List Char) : Option String :=
  match stripCI "risk level".data cs with
  | none => none
  | some rest => matchAltCI ["low", "medium", "high"] (rest.dropWhile colonOrSpace)

/-- Scan for the first match of the risk-level pattern. -/
def findRisk : List Char → Option String
  | [] => none
  | c :: cs =>
    match matchRiskAt (c :: cs) with
    | some s => some s
    | none => findRisk cs

/-- Line 90: `confidenceMatch ? parseInt(confidenceMatch[1]) : 50`. -/
def extractConfidence (text : String) : Nat :=
  (findConf text.data).getD 50

/-- Line 93: `actionMatch ? actionMatch[1] : 'hold'`. -/
def extractAction (text : String) : String :=
  (findAction text.data).getD "hold"

/-- Line 96: `riskMatch ? riskMatch[1] : 'medium'`. -/
def extractRisk (text : String) : String :=
  (findRisk text.data).getD "medium"

/-! ## Workflow data model (trading-workflow.ts)

`tradingViewAlertSchema` (the workflow input) and `tradingAnalysisSchema`.
Optional zod fields become `Option`; the enum-typed fields are carried as
the runtime strings the JS code actually compares (`===`), since the
extractor's case-insensitive capture can in fact produce any casing. -/

/-- The workflow input record validated by `tradingViewAlertSchema`. -/
structure Alert where
  symbol : String
  price : ℚ
  action : String
  strategy : Option String
  timeframe : Option String
  exchange : Option String
  timestamp : ℚ
  message : Option String
  volume : Option ℚ
  rsi : Option ℚ
  macd : Option String
  deriving DecidableEq

/-- The analysis record of `tradingAnalysisSchema`. -/
structure Analysis where
  symbol : String
  currentPrice : ℚ
  recommendedAction : String
  confidence : ℚ
  reasoning : String
  riskLevel : String
  targetPrice : Option ℚ := none
  stopLoss : Option ℚ := none
  positionSize : Option ℚ := none
  timeframe : String
  deriving DecidableEq

/-- JS `s || fallback` on an optional string: the fallback is chosen by
truthiness, so both an absent field and an empty string select it. -/
def jsOrStr (o : Option String) (fallback : String) : String :=
  match o with
  | none => fallback
  | some s => if s = "" then fallback else s

/-- JS template rendering of `n || fallback` on an optional number: the
fallback is chosen by truthiness, so both an absent field and `0` select it. -/
def numOrStr (o : Option ℚ) (fallback : String) : String :=
  match o with
  | none => fallback
  | some q => if q = 0 then fallback else toString q

/-- Fixed head of the analysis prompt template (lines 50–52). -/
def promptHeader : String :=
  "Analyze this TradingView alert and provide a detailed trading recommendation:\n\nALERT DATA:\n"

/-- Fixed tail of the analysis prompt template (lines 64–73). -/
def promptFooter : String :=
  "\n\nPlease provide a comprehensive analysis including:\n1. Current market sentiment for this symbol\n2. Technical analysis based on the alert data\n3. Risk assessment\n4. Recommended action (buy/sell/hold) with confidence level\n5. Target price and stop loss if applicable\n6. Position sizing recommendation\n7. Reasoning for the recommendation\n\nFormat your response as a structured analysis that can be used for automated trading decisions."

/-- The ten `- Label: value` lines of the ALERT DATA block (lines 53–62). -/
def alertLines (a : Alert) : List String :=
  ["- Symbol: " ++ a.symbol,
   "- Price: $" ++ toString a.price,
   "- Action: " ++ a.action,
   "- Strategy: " ++ jsOrStr a.strategy "Not specified",
   "- Timeframe: " ++ jsOrStr a.timeframe "Not specified",
   "- Exchange: " ++ jsOrStr a.exchange "Not specified",
   "- Volume: " ++ numOrStr a.volume "Not available",
   "- RSI: " ++ numOrStr a.rsi "Not available",
   "- MACD: " ++ jsOrStr a.macd "Not available",
   "- Message: " ++ jsOrStr a.message "No additional message"]

/-- The full analysis prompt of `analyzeAlert` (lines 50–73). -/
def buildPrompt (a : Alert) : String :=
  promptHeader ++ String.intercalate "\n" (alertLines a) ++ promptFooter

/-- The structured analysis assembled at lines 98–106 from the alert and
the concatenated agent response text. -/
def buildAnalysis (a : Alert) (analysisText : String) : Analysis :=
  { symbol := a.symbol
    currentPrice := a.price
    recommendedAction := extractAction analysisText
    confidence := (extractConfidence analysisText : ℚ)
    reasoning := analysisText
    riskLevel := extractRisk analysisText
    targetPrice := none
    stopLoss := none
    positionSize := none
    timeframe := jsOrStr a.timeframe "1h" }

/-- The `analyzeAlert` step (lines 34–108): prompt the agent and parse its
response.  The agent stream is represented by its outcome on the prompt;
a stream failure aborts the step (there is no handler in the source). -/
def analyzeAlertStep (a : Alert) (agent : String → Except String String) :
    Except String Analysis :=
  match agent (buildPrompt a) with
  | .error e => .error e
  | .ok analysisText => .ok (buildAnalysis a analysisText)

/-- The `executeTrade` step output record (lines 115–120). -/
structure ExecResult where
  executed : Bool
  tradeId : Option String
  message : String
  timestamp : ℚ
  deriving DecidableEq

/-- The execution prompt of `executeTrade` (lines 142–152). -/
def executionPrompt (a : Analysis) : String :=
  "Execute a " ++ a.recommendedAction ++ " trade for " ++ a.symbol ++ ":\n\n" ++
  "    Analysis Summary:\n" ++
  "    - Symbol: " ++ a.symbol ++ "\n" ++
  "    - Current Price: $" ++ toString a.currentPrice ++ "\n" ++
  "    - Action: " ++ a.recommendedAction ++ "\n" ++
  "    - Confidence: " ++ toString a.confidence ++ "%\n" ++
  "    - Risk Level: " ++ a.riskLevel ++ "\n" ++
  "    - Reasoning: " ++ a.reasoning.take 200 ++ "...\n\n" ++
  "    Please execute this trade using the available trading tools."

/-- The `executeTrade` step (lines 111–173).  The gate (line 132) skips when
`confidence < 70 || recommendedAction === 'hold'`; otherwise the execution
agent is streamed (lines 154–164) — with no surrounding try/catch, so a
stream failure aborts the step — and the success record of lines 166–171 is
returned.  `Date.now()` is passed in as `now`. -/
def executeTrade (a : Analysis) (agent : String → Except String String) (now : ℚ) :
    Except String ExecResult :=
  if a.confidence < 70 ∨ a.recommendedAction = "hold" then
    .ok { executed := false
          tradeId := none
          message := "Trade not executed: " ++
            (if a.recommendedAction = "hold" then "Hold recommendation" else "Low confidence")
          timestamp := now }
  else
    match agent (executionPrompt a) with
    | .error e => .error e
    | .ok _ =>
      .ok { executed := true
            tradeId := some ("trade_" ++ toString now)
            message := "Trade executed: " ++ a.recommendedAction ++ " " ++ a.symbol ++
              " at $" ++ toString a.currentPrice
            timestamp := now }

/-! ## Webhook handler side (mcp.ts)

`tradingViewWebhookSchema` (lines 27–49), the `alertData` normalizer
(lines 60–72) and the route handler of `app.post('/webhook/tradingview')`
(lines 52–158). -/

/-- A JSON value as received over the wire (objects are not needed: the
schema only inspects primitive-typed fields and strips unknown keys). -/
inductive Json where
  | null
  | bool (b : Bool)
  | num (q : ℚ)
  | str (s : String)
  deriving DecidableEq

/-- The raw webhook body, restricted to the keys `tradingViewWebhookSchema`
inspects (zod ignores all others); `none` is an absent/undefined key. -/
structure RawPayload where
  symbol : Option Json := none
  price : Option Json := none
  action : Option Json := none
  strategy : Option Json := none
  timeframe : Option Json := none
  exchange : Option Json := none
  timestamp : Option Json := none
  message : Option Json := none
  volume : Option Json := none
  rsi : Option Json := none
  macd : Option Json := none
  alert_name : Option Json := none
  chart_time : Option Json := none
  bar_index : Option Json := none
  bar_time : Option Json := none
  close : Option Json := none
  high : Option Json := none
  low : Option Json := none
  open_ : Option Json := none
  volume_24h : Option Json := none
  deriving DecidableEq

/-- The result of `tradingViewWebhookSchema.parse` on a valid body. -/
structure ValidatedAlert where
  symbol : String
  price : ℚ
  action : String
  strategy : Option String := none
  timeframe : Option String := none
  exchange : Option String := none
  timestamp : Option ℚ := none
  message : Option String := none
  volume : Option ℚ := none
  rsi : Option ℚ := none
  macd : Option String := none
  alert_name : Option String := none
  chart_time : Option ℚ := none
  bar_index : Option ℚ := none
  bar_time : Option ℚ := none
  close : Option ℚ := none
  high : Option ℚ := none
  low : Option ℚ := none
  open_ : Option ℚ := none
  volume_24h : Option ℚ := none
  deriving DecidableEq

/-- Issues raised by a required `z.string()` field: absent or not a string.
Note zod's bare `z.string()` accepts the empty string. -/
def requiredStrErr (name : String) (v : Option Json) : List String :=
  match v with
  | some (.str _) => []
  | _ => [name]

/-- Issues raised by a required `z.number()` field. -/
def requiredNumErr (name : String) (v : Option Json) : List String :=
  match v with
  | some (.num _) => []
  | _ => [name]

/-- Issues raised by the `z.enum(['buy', 'sell', 'alert'])` field. -/
def actionErr (allowed : List String) (v : Option Json) : List String :=
  match v with
  | some (.str s) => if s ∈ allowed then [] else ["action"]
  | _ => ["action"]

/-- Issues raised by a `z.string().optional()` field: type-checked only
when the key is present. -/
def optStrErr (name : String) (v : Option Json) : List String :=
  match v with
  | none => []
  | some (.str _) => []
  | some _ => [name]

/-- Issues raised by a `z.number().optional()` field. -/
def optNumErr (name : String) (v : Option Json) : List String :=
  match v with
  | none => []
  | some (.num _) => []
  | some _ => [name]

/-- All issues of `tradingViewWebhookSchema.parse`, as the offending field
names in schema declaration order (zod collects every issue in one pass). -/
def fieldErrors (p : RawPayload) : List String :=
  requiredStrErr "symbol" p.symbol ++
  requiredNumErr "price" p.price ++
  actionErr ["buy", "sell", "alert"] p.action ++
  optStrErr "strategy" p.strategy ++
  optStrErr "timeframe" p.timeframe ++
  optStrErr "exchange" p.exchange ++
  optNumErr "timestamp" p.timestamp ++
  optStrErr "message" p.message ++
  optNumErr "volume" p.volume ++
  optNumErr "rsi" p.rsi ++
  optStrErr "macd" p.macd ++
  optStrErr "alert_name" p.alert_name ++
  optNumErr "chart_time" p.chart_time ++
  optNumErr "bar_index" p.bar_index ++
  optNumErr "bar_time" p.bar_time ++
  optNumErr "close" p.close ++
  optNumErr "high" p.high ++
  optNumErr "low" p.low ++
  optNumErr "open" p.open_ ++
  optNumErr "volume_24h" p.volume_24h

/-- Value of a string field on the no-issue path (the default branches are
unreachable once `fieldErrors` is empty). -/
def getStr (v : Option Json) : String :=
  match v with
  | some (.str s) => s
  | _ => ""

/-- Value of a number field on the no-issue path. -/
def getNum (v : Option Json) : ℚ :=
  match v with
  | some (.num q) => q
  | _ => 0

/-- Value of an optional string field on the no-issue path. -/
def getStrOpt (v : Option Json) : Option String :=
  match v with
  | some (.str s) => some s
  | _ => none

/-- Value of an optional number field on the no-issue path. -/
def getNumOpt (v : Option Json) : Option ℚ :=
  match v with
  | some (.num q) => some q
  | _ => none

/-- The typed record `tradingViewWebhookSchema.parse` returns when no field
raises an issue. -/
def extractValidated (p : RawPayload) : ValidatedAlert :=
  { symbol := getStr p.symbol
    price := getNum p.price
    action := getStr p.action
    strategy := getStrOpt p.strategy
    timeframe := getStrOpt p.timeframe
    exchange := getStrOpt p.exchange
    timestamp := getNumOpt p.timestamp
    message := getStrOpt p.message
    volume := getNumOpt p.volume
    rsi := getNumOpt p.rsi
    macd := getStrOpt p.macd
    alert_name := getStrOpt p.alert_name
    chart_time := getNumOpt p.chart_time
    bar_index := getNumOpt p.bar_index
    bar_time := getNumOpt p.bar_time
    close := getNumOpt p.close
    high := getNumOpt p.high
    low := getNumOpt p.low
    open_ := getNumOpt p.open_
    volume_24h := getNumOpt p.volume_24h }

/-- `tradingViewWebhookSchema.parse` (line 57): a typed record, or a
`ZodError` carrying every offending field — never a partial object. -/
def validate (p : RawPayload) : Except (List String) ValidatedAlert :=
  match fieldErrors p with
  | [] => .ok (extractValidated p)
  | es => .error es

/-- A JavaScript value as it appears in the normalized alert object:
`undefined`, a number, or a string. -/
inductive JVal where
  | undef
  | num (q : ℚ)
  | str (s : String)
  deriving DecidableEq

/-- JS truthiness of a `JVal` (`undefined`, `0` and `""` are falsy). -/
def JVal.truthy : JVal → Bool
  | .undef => false
  | .num q => q != 0
  | .str s => s != ""

/-- JS `a || b`: `b` exactly when `a` is falsy. -/
def jsOr (a b : JVal) : JVal :=
  if a.truthy then a else b

/-- JS `a ?? b`: `b` exactly when `a` is nullish (here: undefined). -/
def jsNullish (a b : JVal) : JVal :=
  if a = .undef then b else a

/-- Embed an optional number field into the JS value domain. -/
def JVal.ofNumOpt : Option ℚ → JVal
  | none => .undef
  | some q => .num q

/-- Embed an optional string field into the JS value domain. -/
def JVal.ofStrOpt : Option String → JVal
  | none => .undef
  | some s => .str s

/-- The normalized alert object built at mcp.ts lines 60–72. -/
structure CanonicalAlert where
  symbol : String
  price : JVal
  action : String
  strategy : JVal
  timeframe : JVal
  exchange : JVal
  timestamp : JVal
  message : JVal
  volume : JVal
  rsi : JVal
  macd : JVal
  deriving DecidableEq

/-- The `alertData` normalizer (lines 60–72).  The source coalesces with
`||` (truthiness), and `Date.now()` is passed in as `now`:
`price: validatedData.price || validatedData.close || 0`, etc. -/
def alertData (v : ValidatedAlert) (now : ℚ) : CanonicalAlert :=
  { symbol := v.symbol
    price := jsOr (.num v.price) (jsOr (JVal.ofNumOpt v.close) (.num 0))
    action := v.action
    strategy := jsOr (JVal.ofStrOpt v.strategy) (JVal.ofStrOpt v.alert_name)
    timeframe := JVal.ofStrOpt v.timeframe
    exchange := JVal.ofStrOpt v.exchange
    timestamp := jsOr (JVal.ofNumOpt v.timestamp) (jsOr (JVal.ofNumOpt v.bar_time) (.num now))
    message := JVal.ofStrOpt v.message
    volume := jsOr (JVal.ofNumOpt v.volume) (JVal.ofNumOpt v.volume_24h)
    rsi := JVal.ofNumOpt v.rsi
    macd := JVal.ofStrOpt v.macd }

/-- The normalizer as the claim words it, with nullish (`??`) coalescing:
`price := price ?? close ?? 0; strategy := strategy ?? alert_name;
timestamp := timestamp ?? bar_time ?? currentTime(); volume := volume ??
volume_24h`.  This is the refinement target the source is compared with;
it is NOT the source's behavior. -/
def alertDataSpec (v : ValidatedAlert) (now : ℚ) : CanonicalAlert :=
  { symbol := v.symbol
    price := jsNullish (.num v.price) (jsNullish (JVal.ofNumOpt v.close) (.num 0))
    action := v.action
    strategy := jsNullish (JVal.ofStrOpt v.strategy) (JVal.ofStrOpt v.alert_name)
    timeframe := JVal.ofStrOpt v.timeframe
    exchange := JVal.ofStrOpt v.exchange
    timestamp :=
      jsNullish (JVal.ofNumOpt v.timestamp) (jsNullish (JVal.ofNumOpt v.bar_time) (.num now))
    message := JVal.ofStrOpt v.message
    volume := jsNullish (JVal.ofNumOpt v.volume) (JVal.ofNumOpt v.volume_24h)
    rsi := JVal.ofNumOpt v.rsi
    macd := JVal.ofStrOpt v.macd }

/-- Render a `JVal` the way a JS template literal does. -/
def JVal.render : JVal → String
  | .undef => "undefined"
  | .num q => toString q
  | .str s => s

/-- JS template rendering of `v || fallback` for a `JVal`. -/
def jsOrRender (v : JVal) (fallback : String) : String :=
  if v.truthy then v.render else fallback

/-- The ALERT DATA lines of the handler's prompt (mcp.ts lines 86–95),
over the normalized alert. -/
def canonicalAlertLines (a : CanonicalAlert) : List String :=
  ["- Symbol: " ++ a.symbol,
   "- Price: $" ++ a.price.render,
   "- Action: " ++ a.action,
   "- Strategy: " ++ jsOrRender a.strategy "Not specified",
   "- Timeframe: " ++ jsOrRender a.timeframe "Not specified",
   "- Exchange: " ++ jsOrRender a.exchange "Not specified",
   "- Volume: " ++ jsOrRender a.volume "Not available",
   "- RSI: " ++ jsOrRender a.rsi "Not available",
   "- MACD: " ++ jsOrRender a.macd "Not available",
   "- Message: " ++ jsOrRender a.message "No additional message"]

/-- The handler's analysis prompt (mcp.ts lines 83–106; same template text
as the workflow's). -/
def buildCanonicalPrompt (a : CanonicalAlert) : String :=
  promptHeader ++ String.intercalate "\n" (canonicalAlertLines a) ++ promptFooter

/-- The HTTP response of the webhook route, with the fields the three
response shapes of lines 134–156 populate. -/
structure HttpResponse where
  status : Nat
  success : Bool
  message : String
  errors : List String
  logId : Option String
  analysis : Option String
  errorText : Option String
  deriving DecidableEq

/-- The `POST /webhook/tradingview` handler (mcp.ts lines 52–158), paired
with the number of agent invocations it performs.  `parse` failure is the
`ZodError` branch (400, line 144); an agent-stream failure is caught by the
outer catch (500, line 152); otherwise the 200 response of line 134. -/
def webhookHandler (body : RawPayload) (agent : String → Except String String)
    (now : ℚ) : HttpResponse × Nat :=
  match validate body with
  | .error es =>
    ({ status := 400, success := false, message := "Invalid webhook data",
       errors := es, logId := none, analysis := none, errorText := none }, 0)
  | .ok v =>
    match agent (buildCanonicalPrompt (alertData v now)) with
    | .error e =>
      ({ status := 500, success := false, message := "Internal server error",
         errors := [], logId := none, analysis := none, errorText := some e }, 1)
    | .ok analysisText =>
      ({ status := 200, success := true,
         message := "TradingView alert processed successfully",
         errors := [], logId := some ("log_" ++ toString now),
         analysis := some analysisText, errorText := none }, 1)

/-! ## Concrete sample inputs used by witnesses and counterexamples -/

/-- An agent stub whose stream succeeds with a fixed text. -/
def okStub : String → Except String String := fun _ => .ok "done"

/-- An agent stub whose stream fails (network/auth/quota). -/
def failStub : String → Except String String := fun _ => .error "network error"

/-- Analysis at the gate boundary: confidence 69, action buy. -/
def conf69Buy : Analysis :=
  { symbol := "BTCUSDT", currentPrice := 45000, recommendedAction := "buy",
    confidence := 69, reasoning := "r", riskLevel := "low", timeframe := "1h" }

/-- Analysis at the gate boundary: confidence 70, action buy. -/
def conf70Buy : Analysis :=
  { symbol := "BTCUSDT", currentPrice := 45000, recommendedAction := "buy",
    confidence := 70, reasoning := "r", riskLevel := "low", timeframe := "1h" }

/-- Analysis at the gate boundary: confidence 100, action hold. -/
def conf100Hold : Analysis :=
  { symbol := "BTCUSDT", currentPrice := 45000, recommendedAction := "hold",
    confidence := 100, reasoning := "r", riskLevel := "low", timeframe := "1h" }

/-- A high-confidence buy analysis that passes the gate. -/
def conf85Buy : Analysis :=
  { symbol := "BTCUSDT", currentPrice := 45000, recommendedAction := "buy",
    confidence := 85, reasoning := "strong signal", riskLevel := "low", timeframe := "1h" }

/-- A typical validated workflow alert. -/
def sampleAlert : Alert :=
  { symbol := "BTCUSDT", price := 45000, action := "buy", strategy := none,
    timeframe := some "1h", exchange := some "binance", timestamp := 1700000000,
    message := some "RSI below 30", volume := none, rsi := none, macd := none }

/-- An agent response containing none of the three extraction markers. -/
def noMarkerText : String := "The market looks uncertain today."

/-- A workflow alert with every optional field absent. -/
def allNoneAlert : Alert :=
  { symbol := "SOLUSDT", price := 150, action := "sell", strategy := none,
    timeframe := none, exchange := none, timestamp := 0,
    message := none, volume := none, rsi := none, macd := none }

/-- A workflow alert whose optional fields are present but falsy
(zero numbers, empty strings). -/
def zeroFieldsAlert : Alert :=
  { symbol := "BTCUSDT", price := 45000, action := "buy", strategy := some "",
    timeframe := some "", exchange := some "", timestamp := 0,
    message := some "", volume := some 0, rsi := some 0, macd := some "" }

/-- A validated webhook alert with `price = 0` and `close = 5`: present but
falsy price, separating `||` from `??` coalescing. -/
def zeroPriceAlert : ValidatedAlert :=
  { symbol := "BTCUSDT", price := 0, action := "buy", close := some 5 }

/-- A typical validated webhook alert. -/
def sampleValidated : ValidatedAlert :=
  { symbol := "ETHUSDT", price := 3000, action := "sell", timestamp := some 1700000000 }

/-- A raw body whose `symbol` is the EMPTY string (and otherwise valid). -/
def emptySymbolPayload : RawPayload :=
  { symbol := some (.str ""), price := some (.num 45000), action := some (.str "buy") }

/-- A raw body with no `symbol` key at all. -/
def missingSymbolPayload : RawPayload :=
  { price := some (.num 45000), action := some (.str "buy") }

/-- The spec's malformed example: only `symbol` present. -/
def missingFieldsPayload : RawPayload :=
  { symbol := some (.str "BTCUSDT") }

/-! ## Helper lemmas about the validator -/

theorem requiredStrErr_nil_iff (n : String) (v : Option Json) :
    requiredStrErr n v = [] ↔ ∃ s, v = some (Json.str s) := by
  cases v with
  | none => simp [requiredStrErr]
  | some j => cases j <;> simp [requiredStrErr]

theorem requiredNumErr_nil_iff (n : String) (v : Option Json) :
    requiredNumErr n v = [] ↔ ∃ q, v = some (Json.num q) := by
  cases v with
  | none => simp [requiredNumErr]
  | some j => cases j <;> simp [requiredNumErr]

theorem actionErr_nil_iff (allowed : List String) (v : Option Json) :
    actionErr allowed v = [] ↔ ∃ s, v = some (Json.str s) ∧ s ∈ allowed := by
  cases v with
  | none => simp [actionErr]
  | some j =>
    cases j with
    | str s =>
      by_cases hs : s ∈ allowed <;> simp [actionErr, hs]
    | null => simp [actionErr]
    | bool b => simp [actionErr]
    | num q => simp [actionErr]

theorem requiredStrErr_bad (n : String) (v : Option Json)
    (h : ∀ s, v ≠ some (Json.str s)) : requiredStrErr n v = [n] := by
  cases v with
  | none => rfl
  | some j =>
    cases j with
    | str s => exact absurd rfl (h s)
    | null => rfl
    | bool b => rfl
    | num q => rfl

theorem requiredNumErr_bad (n : String) (v : Option Json)
    (h : ∀ q, v ≠ some (Json.num q)) : requiredNumErr n v = [n] := by
  cases v with
  | none => rfl
  | some j =>
    cases j with
    | num q => exact absurd rfl (h q)
    | null => rfl
    | bool b => rfl
    | str s => rfl

theorem actionErr_bad (allowed : List String) (v : Option Json)
    (h : ¬ ∃ s, v = some (Json.str s) ∧ s ∈ allowed) :
    actionErr allowed v = ["action"] := by
  cases v with
  | none => rfl
  | some j =>
    cases j with
    | str s =>
      by_cases hs : s ∈ allowed
      · exact absurd ⟨s, rfl, hs⟩ h
      · simp [actionErr, hs]
    | null => rfl
    | bool b => rfl
    | num q => rfl

theorem validate_error_of_ne_nil (p : RawPayload) (h : fieldErrors p ≠ []) :
    validate p = .error (fieldErrors p) := by
  unfold validate
  cases hfe : fieldErrors p with
  | nil => exact absurd hfe h
  | cons a as => rfl

theorem validate_ok_elim (p : RawPayload) (v : ValidatedAlert)
    (h : validate p = .ok v) :
    fieldErrors p = [] ∧ v = extractValidated p := by
  unfold validate at h
  split at h
  · next hfe => exact ⟨hfe, (Except.ok.inj h).symm⟩
  · exact Except.noConfusion h

/-! ## Claims -/

/-- C1: the Decision Gate of `executeTrade` skips (`executed = false`) iff
`recommendedAction = "hold"` or `confidence < 70`; otherwise (with the
execution stream succeeding) it returns `executed = true` with a generated
trade identifier.  In particular, confidence 69 with buy skips, confidence
70 with buy executes, and confidence 100 with hold skips. -/
theorem executeTrade_gate_iff (a : Analysis) (agent : String → Except String String)
    (now : ℚ) (t : String) (hag : agent (executionPrompt a) = .ok t) :
    (∃ r, executeTrade a agent now = .ok r ∧
      (r.executed = false ↔ (a.recommendedAction = "hold" ∨ a.confidence < 70)) ∧
      (r.executed = true → ∃ tid, r.tradeId = some tid)) ∧
    (∃ r, executeTrade conf69Buy okStub 0 = .ok r ∧ r.executed = false) ∧
    (∃ r, executeTrade conf70Buy okStub 0 = .ok r ∧ r.executed = true) ∧
    (∃ r, executeTrade conf100Hold okStub 0 = .ok r ∧ r.executed = false) := by
  refine ⟨?_, ⟨_, rfl, rfl⟩, ⟨_, rfl, rfl⟩, ⟨_, rfl, rfl⟩⟩
  unfold executeTrade
  by_cases h : a.confidence < 70 ∨ a.recommendedAction = "hold"
  · rw [if_pos h]
    refine ⟨_, rfl, ?_, ?_⟩
    · exact ⟨fun _ => h.symm, fun _ => rfl⟩
    · intro hx
      simp at hx
  · rw [if_neg h, hag]
    refine ⟨_, rfl, ?_, fun _ => ⟨_, rfl⟩⟩
    constructor
    · intro hx
      simp at hx
    · intro hx
      exact absurd hx.symm h

/-- C1 witness: the gate theorem applied at the concrete boundary analysis
with confidence 70 and a succeeding execution stream. -/
theorem executeTrade_gate_iff_witness :
    ∃ r, executeTrade conf70Buy okStub 0 = .ok r ∧
      (r.executed = false ↔ (conf70Buy.recommendedAction = "hold" ∨ conf70Buy.confidence < 70)) ∧
      (r.executed = true → ∃ tid, r.tradeId = some tid) :=
  (executeTrade_gate_iff conf70Buy okStub 0 "done" rfl).1

/-- C2 counterexample: `executeTrade` has no try/catch around the execution
stream, so with a passing gate (confidence 85, buy) and a failing stream the
step raises the error instead of returning `executed = false`. -/
theorem executeTrade_stream_failure_cex :
    executeTrade conf85Buy failStub 0 = .error "network error" ∧
    (executeTrade conf85Buy failStub 0).isOk = false :=
  ⟨rfl, rfl⟩

/-- C2 amended: when the gate passes and the execution stream fails, the
failure PROPAGATES out of `executeTrade` (surfacing per the error taxonomy
as a collaborator error), and no `ExecutionResult` is returned. -/
theorem executeTrade_stream_failure_propagates (a : Analysis)
    (agent : String → Except String String) (now : ℚ) (e : String)
    (hconf : ¬ a.confidence < 70) (hact : a.recommendedAction ≠ "hold")
    (hag : agent (executionPrompt a) = .error e) :
    executeTrade a agent now = .error e := by
  unfold executeTrade
  rw [if_neg (by tauto), hag]

/-- C2 witness: the amended theorem applied at the concrete passing
analysis with a failing execution stream. -/
theorem executeTrade_stream_failure_propagates_witness :
    executeTrade conf85Buy failStub 0 = .error "network error" :=
  executeTrade_stream_failure_propagates conf85Buy failStub 0 "network error"
    (by decide) (by decide) rfl

/-- C3: on the agent response text `confidence: 250%` the extractor's regex
captures the digits `250` and `parseInt` yields 250, which exceeds 100 —
violating the `z.number().min(0).max(100)` bound the same file declares for
`confidence` in `tradingAnalysisSchema`. -/
theorem extractConfidence_exceeds_100 :
    extractConfidence "confidence: 250%" = 250 ∧
    ¬ extractConfidence "confidence: 250%" ≤ 100 := by
  decide

/-- C4: on a response with no confidence, no recommended-action and no
risk-level marker, the extractor yields exactly confidence 50, action
`hold`, risk `medium`, and the `analyzeAlert` step completes normally. -/
theorem extractor_defaults_of_no_markers (a : Alert)
    (agent : String → Except String String) (t : String)
    (hag : agent (buildPrompt a) = .ok t)
    (hc : findConf t.data = none) (ha : findAction t.data = none)
    (hr : findRisk t.data = none) :
    analyzeAlertStep a agent = .ok (buildAnalysis a t) ∧
    (buildAnalysis a t).confidence = 50 ∧
    (buildAnalysis a t).recommendedAction = "hold" ∧
    (buildAnalysis a t).riskLevel = "medium" := by
  refine ⟨?_, ?_, ?_, ?_⟩
  · unfold analyzeAlertStep
    rw [hag]
  · simp [buildAnalysis, extractConfidence, hc]
  · simp [buildAnalysis, extractAction, ha]
  · simp [buildAnalysis, extractRisk, hr]

/-- C4 witness: the defaults theorem applied to a concrete marker-free
agent response. -/
theorem extractor_defaults_of_no_markers_witness :
    analyzeAlertStep sampleAlert (fun _ => .ok noMarkerText) =
      .ok (buildAnalysis sampleAlert noMarkerText) ∧
    (buildAnalysis sampleAlert noMarkerText).confidence = 50 ∧
    (buildAnalysis sampleAlert noMarkerText).recommendedAction = "hold" ∧
    (buildAnalysis sampleAlert noMarkerText).riskLevel = "medium" :=
  extractor_defaults_of_no_markers sampleAlert (fun _ => .ok noMarkerText) noMarkerText
    rfl (by decide) (by decide) (by decide)

/-- C7: when schema validation fails, the webhook handler answers with the
400 response carrying the field errors and performs ZERO agent invocations
(`parse` throws before the agent is reached, and the ZodError branch of the
catch returns immediately). -/
theorem webhook_validation_failure_no_agent_call (body : RawPayload)
    (agent : String → Except String String) (now : ℚ) (es : List String)
    (hval : validate body = .error es) :
    webhookHandler body agent now =
      ({ status := 400, success := false, message := "Invalid webhook data",
         errors := es, logId := none, analysis := none, errorText := none }, 0) := by
  unfold webhookHandler
  rw [hval]

/-- C7 witness: the spec's malformed payload (only `symbol` present) gets
the 400 response listing `price` and `action`, with zero agent calls. -/
theorem webhook_validation_failure_no_agent_call_witness :
    webhookHandler missingFieldsPayload okStub 0 =
      ({ status := 400, success := false, message := "Invalid webhook data",
         errors := ["price", "action"], logId := none, analysis := none,
         errorText := none }, 0) :=
  webhook_validation_failure_no_agent_call missingFieldsPayload okStub 0
    ["price", "action"] rfl

/-- C8: the prompt's ALERT DATA block always consists of the same ten
labelled lines, and each absent optional field renders as its explicit
placeholder text rather than being omitted. -/
theorem prompt_lines_uniform (a : Alert) :
    ∃ st tf ex vo rs mc ms : String,
      alertLines a =
        ["- Symbol: " ++ a.symbol,
         "- Price: $" ++ toString a.price,
         "- Action: " ++ a.action,
         "- Strategy: " ++ st,
         "- Timeframe: " ++ tf,
         "- Exchange: " ++ ex,
         "- Volume: " ++ vo,
         "- RSI: " ++ rs,
         "- MACD: " ++ mc,
         "- Message: " ++ ms] ∧
      (a.strategy = none → st = "Not specified") ∧
      (a.timeframe = none → tf = "Not specified") ∧
      (a.exchange = none → ex = "Not specified") ∧
      (a.volume = none → vo = "Not available") ∧
      (a.rsi = none → rs = "Not available") ∧
      (a.macd = none → mc = "Not available") ∧
      (a.message = none → ms = "No additional message") ∧
      buildPrompt a = promptHeader ++ String.intercalate "\n" (alertLines a) ++ promptFooter := by
  refine ⟨jsOrStr a.strategy "Not specified", jsOrStr a.timeframe "Not specified",
    jsOrStr a.exchange "Not specified", numOrStr a.volume "Not available",
    numOrStr a.rsi "Not available", jsOrStr a.macd "Not available",
    jsOrStr a.message "No additional message",
    rfl, ?_, ?_, ?_, ?_, ?_, ?_, ?_, rfl⟩
  all_goals intro h
  all_goals simp [h, jsOrStr, numOrStr]

/-- C8 witness: the uniform-lines theorem applied to an alert with every
optional field absent. -/
theorem prompt_lines_uniform_witness :
    ∃ st tf ex vo rs mc ms : String,
      alertLines allNoneAlert =
        ["- Symbol: " ++ allNoneAlert.symbol,
         "- Price: $" ++ toString allNoneAlert.price,
         "- Action: " ++ allNoneAlert.action,
         "- Strategy: " ++ st,
         "- Timeframe: " ++ tf,
         "- Exchange: " ++ ex,
         "- Volume: " ++ vo,
         "- RSI: " ++ rs,
         "- MACD: " ++ mc,
         "- Message: " ++ ms] ∧
      (allNoneAlert.strategy = none → st = "Not specified") ∧
      (allNoneAlert.timeframe = none → tf = "Not specified") ∧
      (allNoneAlert.exchange = none → ex = "Not specified") ∧
      (allNoneAlert.volume = none → vo = "Not available") ∧
      (allNoneAlert.rsi = none → rs = "Not available") ∧
      (allNoneAlert.macd = none → mc = "Not available") ∧
      (allNoneAlert.message = none → ms = "No additional message") ∧
      buildPrompt allNoneAlert =
        promptHeader ++ String.intercalate "\n" (alertLines allNoneAlert) ++ promptFooter :=
  prompt_lines_uniform allNoneAlert

/-- C9: an optional field that is present but falsy (a zero number, an
empty string) renders its placeholder text instead of the value, because
the template selects fallbacks with `||` (truthiness), not by absence. -/
theorem prompt_truthiness_placeholders (a : Alert) :
    (a.volume = some 0 → (alertLines a)[6]? = some "- Volume: Not available") ∧
    (a.rsi = some 0 → (alertLines a)[7]? = some "- RSI: Not available") ∧
    (a.strategy = some "" → (alertLines a)[3]? = some "- Strategy: Not specified") ∧
    (a.timeframe = some "" → (alertLines a)[4]? = some "- Timeframe: Not specified") ∧
    (a.exchange = some "" → (alertLines a)[5]? = some "- Exchange: Not specified") ∧
    (a.macd = some "" → (alertLines a)[8]? = some "- MACD: Not available") ∧
    (a.message = some "" → (alertLines a)[9]? = some "- Message: No additional message") := by
  refine ⟨?_, ?_, ?_, ?_, ?_, ?_, ?_⟩
  all_goals intro h
  all_goals simp only [alertLines]
  all_goals rw [h]
  all_goals rfl

/-- C9 witness: the truthiness theorem applied to an alert whose optional
fields are all present but falsy. -/
theorem prompt_truthiness_placeholders_witness :
    (zeroFieldsAlert.volume = some 0 →
      (alertLines zeroFieldsAlert)[6]? = some "- Volume: Not available") ∧
    (zeroFieldsAlert.rsi = some 0 →
      (alertLines zeroFieldsAlert)[7]? = some "- RSI: Not available") ∧
    (zeroFieldsAlert.strategy = some "" →
      (alertLines zeroFieldsAlert)[3]? = some "- Strategy: Not specified") ∧
    (zeroFieldsAlert.timeframe = some "" →
      (alertLines zeroFieldsAlert)[4]? = some "- Timeframe: Not specified") ∧
    (zeroFieldsAlert.exchange = some "" →
      (alertLines zeroFieldsAlert)[5]? = some "- Exchange: Not specified") ∧
    (zeroFieldsAlert.macd = some "" →
      (alertLines zeroFieldsAlert)[8]? = some "- MACD: Not available") ∧
    (zeroFieldsAlert.message = some "" →
      (alertLines zeroFieldsAlert)[9]? = some "- Message: No additional message") :=
  prompt_truthiness_placeholders zeroFieldsAlert

/-- C10: the analysis carries `timeframe` through unchanged when it is a
non-empty string, defaults it to `1h` when absent or empty (the `|| '1h'`
fallback), and `currentPrice` always equals the alert's price. -/
theorem analysis_timeframe_and_price (a : Alert) (t : String) :
    ((a.timeframe = none ∨ a.timeframe = some "") →
      (buildAnalysis a t).timeframe = "1h") ∧
    (∀ s, a.timeframe = some s → s ≠ "" → (buildAnalysis a t).timeframe = s) ∧
    (buildAnalysis a t).currentPrice = a.price := by
  refine ⟨?_, ?_, rfl⟩
  · rintro (h | h) <;> simp [buildAnalysis, jsOrStr, h]
  · intro s h hs
    simp [buildAnalysis, jsOrStr, h, hs]

/-- C10 witness: the timeframe theorem applied at a concrete alert and
response text. -/
theorem analysis_timeframe_and_price_witness :
    ((sampleAlert.timeframe = none ∨ sampleAlert.timeframe = some "") →
      (buildAnalysis sampleAlert noMarkerText).timeframe = "1h") ∧
    (∀ s, sampleAlert.timeframe = some s → s ≠ "" →
      (buildAnalysis sampleAlert noMarkerText).timeframe = s) ∧
    (buildAnalysis sampleAlert noMarkerText).currentPrice = sampleAlert.price :=
  analysis_timeframe_and_price sampleAlert noMarkerText

/-- C5 counterexample: the normalizer coalesces with `||` (truthiness), not
`??` (nullish).  On a validated alert with `price = 0` and `close = 5` the
source produces price 5, while the claimed `price ?? close ?? 0` formula
produces 0. -/
theorem alertData_nullish_cex :
    (alertData zeroPriceAlert 1000).price = JVal.num 5 ∧
    (alertDataSpec zeroPriceAlert 1000).price = JVal.num 0 ∧
    (alertData zeroPriceAlert 1000).price ≠ (alertDataSpec zeroPriceAlert 1000).price := by
  refine ⟨by decide, by decide, by decide⟩

/-- C5 amended: the normalizer is pure and total and coalesces with JS
truthiness (`||`): a present-but-falsy field (price 0, timestamp 0, empty
strategy, volume 0) falls through to the next alternative; `price` and
`timestamp` are nevertheless always defined numbers. -/
theorem alertData_truthy_coalesce (v : ValidatedAlert) (now : ℚ) :
    (∃ q, (alertData v now).price = JVal.num q) ∧
    (∃ ts, (alertData v now).timestamp = JVal.num ts) ∧
    (v.price ≠ 0 → (alertData v now).price = JVal.num v.price) ∧
    (v.price = 0 → v.close = none → (alertData v now).price = JVal.num 0) ∧
    (v.price = 0 → ∀ c, v.close = some c → c ≠ 0 → (alertData v now).price = JVal.num c) ∧
    (∀ ts, v.timestamp = some ts → ts ≠ 0 → (alertData v now).timestamp = JVal.num ts) ∧
    (v.timestamp = none → v.bar_time = none → (alertData v now).timestamp = JVal.num now) ∧
    (v.strategy = some "" → (alertData v now).strategy = JVal.ofStrOpt v.alert_name) ∧
    (v.volume = some 0 → (alertData v now).volume = JVal.ofNumOpt v.volume_24h) := by
  refine ⟨?_, ?_, ?_, ?_, ?_, ?_, ?_, ?_, ?_⟩
  · by_cases hp : v.price = 0
    · cases hc : v.close with
      | none => exact ⟨0, by simp [alertData, jsOr, JVal.truthy, JVal.ofNumOpt, hp, hc]⟩
      | some c =>
        by_cases hc0 : c = 0
        · exact ⟨0, by simp [alertData, jsOr, JVal.truthy, JVal.ofNumOpt, hp, hc, hc0]⟩
        · exact ⟨c, by simp [alertData, jsOr, JVal.truthy, JVal.ofNumOpt, hp, hc, hc0]⟩
    · exact ⟨v.price, by simp [alertData, jsOr, JVal.truthy, hp]⟩
  · cases ht : v.timestamp with
    | some ts =>
      by_cases ht0 : ts = 0
      · cases hb : v.bar_time with
        | none => exact ⟨now, by simp [alertData, jsOr, JVal.truthy, JVal.ofNumOpt, ht, ht0, hb]⟩
        | some b =>
          by_cases hb0 : b = 0
          · exact ⟨now,
              by simp [alertData, jsOr, JVal.truthy, JVal.ofNumOpt, ht, ht0, hb, hb0]⟩
          · exact ⟨b, by simp [alertData, jsOr, JVal.truthy, JVal.ofNumOpt, ht, ht0, hb, hb0]⟩
      · exact ⟨ts, by simp [alertData, jsOr, JVal.truthy, JVal.ofNumOpt, ht, ht0]⟩
    | none =>
      cases hb : v.bar_time with
      | none => exact ⟨now, by simp [alertData, jsOr, JVal.truthy, JVal.ofNumOpt, ht, hb]⟩
      | some b =>
        by_cases hb0 : b = 0
        · exact ⟨now, by simp [alertData, jsOr, JVal.truthy, JVal.ofNumOpt, ht, hb, hb0]⟩
        · exact ⟨b, by simp [alertData, jsOr, JVal.truthy, JVal.ofNumOpt, ht, hb, hb0]⟩
  · intro hp
    simp [alertData, jsOr, JVal.truthy, hp]
  · intro hp hc
    simp [alertData, jsOr, JVal.truthy, JVal.ofNumOpt, hp, hc]
  · intro hp c hc hc0
    simp [alertData, jsOr, JVal.truthy, JVal.ofNumOpt, hp, hc, hc0]
  · intro ts ht ht0
    simp [alertData, jsOr, JVal.truthy, JVal.ofNumOpt, ht, ht0]
  · intro ht hb
    simp [alertData, jsOr, JVal.truthy, JVal.ofNumOpt, ht, hb]
  · intro hst
    simp [alertData, jsOr, JVal.truthy, JVal.ofStrOpt, hst]
  · intro hv
    simp [alertData, jsOr, JVal.truthy, JVal.ofNumOpt, hv]

/-- C5 witness: the truthiness-coalescing theorem applied at a concrete
validated alert and clock value. -/
theorem alertData_truthy_coalesce_witness :
    (∃ q, (alertData sampleValidated 42).price = JVal.num q) ∧
    (∃ ts, (alertData sampleValidated 42).timestamp = JVal.num ts) ∧
    (sampleValidated.price ≠ 0 →
      (alertData sampleValidated 42).price = JVal.num sampleValidated.price) ∧
    (sampleValidated.price = 0 → sampleValidated.close = none →
      (alertData sampleValidated 42).price = JVal.num 0) ∧
    (sampleValidated.price = 0 → ∀ c, sampleValidated.close = some c → c ≠ 0 →
      (alertData sampleValidated 42).price = JVal.num c) ∧
    (∀ ts, sampleValidated.timestamp = some ts → ts ≠ 0 →
      (alertData sampleValidated 42).timestamp = JVal.num ts) ∧
    (sampleValidated.timestamp = none → sampleValidated.bar_time = none →
      (alertData sampleValidated 42).timestamp = JVal.num 42) ∧
    (sampleValidated.strategy = some "" →
      (alertData sampleValidated 42).strategy = JVal.ofStrOpt sampleValidated.alert_name) ∧
    (sampleValidated.volume = some 0 →
      (alertData sampleValidated 42).volume = JVal.ofNumOpt sampleValidated.volume_24h) :=
  alertData_truthy_coalesce sampleValidated 42

/-- C6 counterexample: the schema uses a bare `z.string()` for `symbol`, so
a raw body whose `symbol` is the EMPTY string — not a non-empty string —
is ACCEPTED rather than rejected with a `symbol` field error. -/
theorem validate_accepts_empty_symbol :
    validate emptySymbolPayload =
      .ok { symbol := "", price := 45000, action := "buy" } := by
  rfl

/-- C6 amended: the validator rejects — with a structured error listing the
offending fields, never a partial object — whenever `symbol` is not a
string (empty strings are accepted), `price` is not numeric, or `action` is
outside the accepted enum; a successful parse certifies the field typings,
and absent optional fields are never type-checked. -/
theorem validate_rejects_bad_fields (p : RawPayload) :
    ((∀ s, p.symbol ≠ some (Json.str s)) →
      validate p = .error (fieldErrors p) ∧ "symbol" ∈ fieldErrors p) ∧
    ((∀ q, p.price ≠ some (Json.num q)) →
      validate p = .error (fieldErrors p) ∧ "price" ∈ fieldErrors p) ∧
    ((¬ ∃ s, p.action = some (Json.str s) ∧ s ∈ (["buy", "sell", "alert"] : List String)) →
      validate p = .error (fieldErrors p) ∧ "action" ∈ fieldErrors p) ∧
    (∀ v, validate p = .ok v →
      p.symbol = some (Json.str v.symbol) ∧ p.price = some (Json.num v.price) ∧
      p.action = some (Json.str v.action) ∧
      v.action ∈ (["buy", "sell", "alert"] : List String)) ∧
    (p.strategy = none → p.timeframe = none → p.exchange = none → p.timestamp = none →
      p.message = none → p.volume = none → p.rsi = none → p.macd = none →
      p.alert_name = none → p.chart_time = none → p.bar_index = none → p.bar_time = none →
      p.close = none → p.high = none → p.low = none → p.open_ = none → p.volume_24h = none →
      (∃ s, p.symbol = some (Json.str s)) → (∃ q, p.price = some (Json.num q)) →
      (∃ s, p.action = some (Json.str s) ∧ s ∈ (["buy", "sell", "alert"] : List String)) →
      ∃ v, validate p = .ok v) := by
  refine ⟨?_, ?_, ?_, ?_, ?_⟩
  · intro hbad
    have hmem : "symbol" ∈ fieldErrors p := by
      unfold fieldErrors
      rw [requiredStrErr_bad _ _ hbad]
      simp
    exact ⟨validate_error_of_ne_nil p (List.ne_nil_of_mem hmem), hmem⟩
  · intro hbad
    have hmem : "price" ∈ fieldErrors p := by
      unfold fieldErrors
      rw [requiredNumErr_bad _ _ hbad]
      simp
    exact ⟨validate_error_of_ne_nil p (List.ne_nil_of_mem hmem), hmem⟩
  · intro hbad
    have hmem : "action" ∈ fieldErrors p := by
      unfold fieldErrors
      rw [actionErr_bad _ _ hbad]
      simp
    exact ⟨validate_error_of_ne_nil p (List.ne_nil_of_mem hmem), hmem⟩
  · intro v hok
    obtain ⟨hfe, hv⟩ := validate_ok_elim p v hok
    simp only [fieldErrors, List.append_eq_nil, and_assoc] at hfe
    obtain ⟨hsym, hpr, hact, -⟩ := hfe
    obtain ⟨s, hs⟩ := (requiredStrErr_nil_iff _ _).mp hsym
    obtain ⟨q, hq⟩ := (requiredNumErr_nil_iff _ _).mp hpr
    obtain ⟨sa, hsa, hmem⟩ := (actionErr_nil_iff _ _).mp hact
    subst hv
    refine ⟨?_, ?_, ?_, ?_⟩
    · simp [extractValidated, getStr, hs]
    · simp [extractValidated, getNum, hq]
    · simp [extractValidated, getStr, hsa]
    · simp [extractValidated, getStr, hsa, hmem]
  · intro h1 h2 h3 h4 h5 h6 h7 h8 h9 h10 h11 h12 h13 h14 h15 h16 h17 hsym hpr hact
    obtain ⟨s, hs⟩ := hsym
    obtain ⟨q, hq⟩ := hpr
    obtain ⟨sa, hsa, hmem⟩ := hact
    have hfe : fieldErrors p = [] := by
      unfold fieldErrors
      rw [hs, hq, hsa, h1, h2, h3, h4, h5, h6, h7, h8, h9, h10, h11, h12, h13, h14, h15,
        h16, h17]
      simp [requiredStrErr, requiredNumErr, actionErr, optStrErr, optNumErr, hmem]
    refine ⟨extractValidated p, ?_⟩
    unfold validate
    rw [hfe]

/-- C6 witness: the amended theorem applied to a raw body with no `symbol`
key: the validator rejects and lists `symbol`. -/
theorem validate_rejects_bad_fields_witness :
    validate missingSymbolPayload = .error (fieldErrors missingSymbolPayload) ∧
    "symbol" ∈ fieldErrors missingSymbolPayload :=
  (validate_rejects_bad_fields missingSymbolPayload).1
    (by intro s h; simp [missingSymbolPayload] at h)

end Trading
